import Mathlib

/-!
Verification of the atom-latex build orchestrator against its specification.

The definitions below are a shallow embedding of the TypeScript sources:

* `src/lib/builders/latexmk.ts` (the `LatexmkBuilder` adapter) — embedded in
  full: argument construction, exit-code logging, the runtime-dependency
  version check, and the relative-path rewrite in `execLatexmk`.
* `src/lib/main.ts` (the `activate` wiring for save-triggered builds).
* `Composer` methods (`initializeBuildStateFromProperties`,
  `resolveOutputFilePath`, `shouldMoveResult`) live in `composer.ts`, which is
  not part of the sources here — only its test suite
  `src/spec/composer-spec.js` is.  Those definitions are modelled from the
  spec, and are marked as such in their doc comments.

JavaScript strings are modelled as Lean `String`; JS truthiness of a string
is modelled as "non-empty"; machine numbers (process exit codes) as `Int`.
-/

namespace AtomLatex

/- ### Generic helpers -/

/-- Truthiness of a JS string: empty strings are falsy. -/
def strTruthy (s : String) : Bool := s != ""

/-- Truthiness of a nullable JS string: null and the empty string are falsy. -/
def optStrTruthy : Option String → Bool
  | some s => s != ""
  | none => false

/-- First `take n` characters of a string, used to discriminate flag shapes. -/
def argPrefix (n : Nat) (a : String) : List Char := a.data.take n

/-- Lexicographic comparison of char lists, exactly as the JS `<` operator
compares strings (code-unit by code-unit; a strict prefix is smaller). -/
def jsLtChars : List Char → List Char → Bool
  | [], [] => false
  | [], _ :: _ => true
  | _ :: _, [] => false
  | a :: as, b :: bs => if a < b then true else if b < a then false else jsLtChars as bs

/-- The JS `<` operator on strings: lexicographic by character code. -/
def jsStringLt (a b : String) : Bool := jsLtChars a.data b.data

/-- The character class of the regex `\s`, restricted to its ASCII members
(the version strings scanned here are ASCII). -/
def jsWhitespace (c : Char) : Bool :=
  c = ' ' || c = '\t' || c = '\n' || c = '\r' || c = '\x0b' || c = '\x0c'

/-- Case-insensitive match of a pattern against the front of the input;
returns the rest of the input on success.  Models a literal regex fragment
under the `i` flag (ASCII case folding). -/
def stripCI : List Char → List Char → Option (List Char)
  | [], l => some l
  | _ :: _, [] => none
  | p :: ps, c :: cs => if p.toLower = c.toLower then stripCI ps cs else none

/-- Attempt to match `Version\s+(\S+)` (case-insensitively) at the start of
`l`, returning the capture group: after the literal word and at least one
whitespace character, the maximal run of non-whitespace characters. -/
def versionAt (l : List Char) : Option String :=
  match stripCI ("version".data) l with
  | none => none
  | some rest =>
    match rest with
    | [] => none
    | d :: ds =>
      if jsWhitespace d then
        let tok := ((d :: ds).dropWhile jsWhitespace).takeWhile (fun c => !jsWhitespace c)
        if tok = [] then none else some (String.mk tok)
      else none

/-- Leftmost match: try `versionAt` at every position, first success wins.
Together with `versionAt` this models `stdout.match(/Version\s+(\S+)/i)`. -/
def findVersion : List Char → Option String
  | [] => none
  | c :: cs =>
    match versionAt (c :: cs) with
    | some v => some v
    | none => findVersion cs

/-- The capture group of `LATEXMK_VERSION_PATTERN = /Version\s+(\S+)/i`
applied to the probe's stdout, or `none` when the pattern does not match. -/
def versionMatch (stdout : String) : Option String := findVersion stdout.data

/-- Split a list of characters at every occurrence of `sep` (the pieces do
not contain `sep`; adjacent separators yield empty pieces). -/
def splitChars (sep : Char) : List Char → List (List Char)
  | [] => [[]]
  | c :: cs =>
    let r := splitChars sep cs
    if c = sep then [] :: r
    else
      match r with
      | h :: t => (c :: h) :: t
      | [] => [[c]]

/-- Non-empty `/`-separated components of a POSIX path. -/
def pathComponents (p : String) : List String :=
  ((splitChars '/' p.data).filter (fun l => l != [])).map (fun l => String.mk l)

/-- Length of the common prefix of two component lists. -/
def commonPrefixLen : List String → List String → Nat
  | a :: as, b :: bs => if a = b then commonPrefixLen as bs + 1 else 0
  | _, _ => 0

/-- Node's `path.relative(from, to)` for already-resolved absolute POSIX
paths: drop the common leading components, then one `..` per remaining
component of `from` followed by the remaining components of `to`. -/
def pathRelative (f t : String) : String :=
  let fp := pathComponents f
  let tp := pathComponents t
  let n := commonPrefixLen fp tp
  String.intercalate ("/") (List.replicate (fp.length - n) ("..") ++ tp.drop n)

/-- Node's `path.dirname` for POSIX paths: everything before the last `/`;
a path without `/` has dirname `.`. -/
def pathDirname (p : String) : String :=
  match (splitChars '/' p.data).dropLast with
  | [] => "."
  | [[]] => "/"
  | ds => String.intercalate ("/") (ds.map (fun l => String.mk l))

/-- Node's `path.basename` for a POSIX path without a trailing slash:
the component after the last `/`. -/
def pathBasename (p : String) : String :=
  String.mk (((splitChars '/' p.data).getLast?).getD [])

/-- Node's `path.join(dir, name)` for a directory and a bare file name,
including the normalization that drops a leading `./`. -/
def pathJoin (d f : String) : String :=
  if d = "" || d = "." then f
  else if d = "/" then "/" ++ f
  else d ++ "/" ++ f

/-- The JS expression `s.slice(1, -1)`: drop the first and last character. -/
def sliceQuotes (s : String) : String := String.mk ((s.data.drop 1).dropLast)

/- ### Data model -/

/-- The fields of a `JobState` (together with the `BuildState` fields it
exposes through delegating getters) that the latexmk builder and the
composer's output-path resolution read.  `getTexFilePath`/`getFilePath` both
resolve to the root source path; they are carried separately so each
call site of the source maps to one field. -/
structure JobState where
  engine : String
  outputFormat : String
  producer : String
  outputDirectory : String
  jobName : Option String
  shouldRebuild : Bool
  enableShellEscape : Bool
  enableSynctex : Bool
  enableExtendedBuildMode : Bool
  texFilePath : String
  filePath : String
  moveResultToSourceDirectory : Bool
  outputFilePath : Option String

/-- Well-formedness of a JobState per the data model: the resolved output
format is one of the three supported values. -/
def JobState.WF (j : JobState) : Prop :=
  j.outputFormat = "pdf" ∨ j.outputFormat = "dvi" ∨ j.outputFormat = "ps"

/-- Result of one external process execution: exit status plus captured
output streams (the fields destructured from `executeChildProcess`). -/
structure ProcessResult where
  statusCode : Int
  stdout : String
  stderr : String

/-- Severity of a message sent to the log sink. -/
inductive LogLevel
  | error
  | warning
  | info
deriving DecidableEq

/-- One call into the log sink (`latex.log.error/warning/info`). -/
structure LogCall where
  level : LogLevel
  text : String
deriving DecidableEq

/- ### LatexmkBuilder (src/lib/builders/latexmk.ts) -/

/-- The regex `LATEX_PATTERN = /^latex|u?platex$/`: by alternation this
matches iff the engine starts with `latex` (branch `^latex`) or ends with
`platex` (branch `u?platex$` — the optional leading `u` is subsumed by the
`platex` suffix test). -/
def matchesLatexPattern (s : String) : Bool :=
  List.isPrefixOf ("latex".data) s.data || List.isSuffixOf ("platex".data) s.data

/-- The regex `PDF_ENGINE_PATTERN = /^(xelatex|lualatex)$/`: anchored at both
ends, so it matches exactly the two listed engines. -/
def matchesPdfEnginePattern (s : String) : Bool :=
  (s == "xelatex") || (s == "lualatex")

/-- The constant `LATEXMK_MINIMUM_VERSION`. -/
def LATEXMK_MINIMUM_VERSION : String := "4.37"

/-- The bundled latexmkrc control file: models
`path.resolve(__dirname, "..", "..", "resources", "latexmkrc")`, written
relative to the package root (the value is environment-dependent at run
time; no claim depends on it). -/
def latexmkrcPath : String := "resources/latexmkrc"

/-- The interpolation `-jobname="${jobName}"`. -/
def jobnameFlag (n : String) : String := "-jobname=\x22" ++ n ++ "\x22"

/-- The interpolation `-outdir="${outputDirectory}"`. -/
def outdirFlag (d : String) : String := "-outdir=\x22" ++ d ++ "\x22"

/-- The interpolation `-latex="${engine}"`. -/
def latexFlag (e : String) : String := "-latex=\x22" ++ e ++ "\x22"

/-- The interpolation `-pdflatex="${engine}"`. -/
def pdflatexFlag (e : String) : String := "-pdflatex=\x22" ++ e ++ "\x22"

/-- The interpolation `"${path}"`: a path wrapped in double quotes. -/
def quotedArg (p : String) : String := "\x22" ++ p ++ "\x22"

/-- The single pushed element `-r "${latexmkrcPath}"`. -/
def extendedFlag : String := "-r \x22" ++ latexmkrcPath ++ "\x22"

/-- `LatexmkBuilder.constructPdfProducerArgs`: the producer-specific flag
used when a plain-TeX-family engine must produce PDF via DVI/PS. -/
def constructPdfProducerArgs (j : JobState) : String :=
  match j.producer with
  | "ps2pdf" => "-pdfps"
  | "dvipdf" => "-pdfdvi -e \x22$dvipdf = \x27dvipdf %O %S %D\x27;\x22"
  | _ => "-pdfdvi -e \x22$dvipdf = \x27" ++ j.producer ++ " %O -o %D %S\x27;\x22"

/-- The four unconditional flags pushed first by `constructArgs`. -/
def baseArgs : List String :=
  ["-interaction=nonstopmode", "-f", "-cd", "-file-line-error"]

/-- The push guarded by `jobState.getShouldRebuild()`. -/
def rebuildArgs (j : JobState) : List String :=
  if j.shouldRebuild then ["-g"] else []

/-- The push guarded by the truthiness of `jobState.getJobName()` (null and
the empty string are falsy in JS). -/
def jobnameArgs (j : JobState) : List String :=
  match j.jobName with
  | some n => if n ≠ "" then [jobnameFlag n] else []
  | none => []

/-- The push guarded by `jobState.getEnableShellEscape()`. -/
def shellEscapeArgs (j : JobState) : List String :=
  if j.enableShellEscape then ["-shell-escape"] else []

/-- The push guarded by `jobState.getEnableSynctex()`. -/
def synctexArgs (j : JobState) : List String :=
  if j.enableSynctex then ["-synctex=1"] else []

/-- The push guarded by `jobState.getEnableExtendedBuildMode()`. -/
def extendedArgs (j : JobState) : List String :=
  if j.enableExtendedBuildMode then [extendedFlag] else []

/-- The engine-selection block of `constructArgs`: plain-TeX-family engines
get an explicit `-latex=` flag plus a producer/format flag; `xelatex` and
`lualatex` get their short flag when the format is pdf; otherwise an
explicit `-pdflatex=` flag (omitted for the default engine) plus a format
flag. -/
def engineArgs (j : JobState) : List String :=
  if matchesLatexPattern j.engine then
    [latexFlag j.engine,
      if j.outputFormat = "pdf" then constructPdfProducerArgs j else "-" ++ j.outputFormat]
  else if j.outputFormat = "pdf" ∧ matchesPdfEnginePattern j.engine then
    ["-" ++ j.engine]
  else
    (if j.engine ≠ "pdflatex" then [pdflatexFlag j.engine] else []) ++
      ["-" ++ j.outputFormat]

/-- The push guarded by the truthiness of `jobState.getOutputDirectory()`. -/
def outdirArgs (j : JobState) : List String :=
  if j.outputDirectory ≠ "" then [outdirFlag j.outputDirectory] else []

/-- `LatexmkBuilder.constructArgs`: the sequence of `args.push` calls, in
source order, ending with the quoted source file path. -/
def constructArgs (j : JobState) : List String :=
  baseArgs ++ rebuildArgs j ++ jobnameArgs j ++ shellEscapeArgs j ++
    synctexArgs j ++ extendedArgs j ++ engineArgs j ++ outdirArgs j ++
    [quotedArg j.texFilePath]

/-- Modelled from the spec: the generic base-class exit-code handler
(`Builder.logStatusCode` lives in `builder.ts`, which is not under the
sources here); per the spec all other nonzero codes fall through to a
generic handler that reports the code and captured stderr. -/
def genericLogStatusCode (statusCode : Int) (stderr : String) : LogCall :=
  ⟨LogLevel.error,
    "latexmk failed with exit code " ++ toString statusCode ++
      " and stderr \x22" ++ stderr ++ "\x22."⟩

/-- `LatexmkBuilder.logStatusCode`: the switch over the latexmk exit-code
taxonomy; unlisted codes delegate to `super.logStatusCode`. -/
def logStatusCode (statusCode : Int) (stderr : String) : LogCall :=
  match statusCode with
  | 10 => ⟨LogLevel.error, "latexmk: Bad command line arguments."⟩
  | 11 => ⟨LogLevel.error,
      "latexmk: File specified on command line not found or other file not found."⟩
  | 12 => ⟨LogLevel.error, "latexmk: Failure in some part of making files."⟩
  | 13 => ⟨LogLevel.error, "latexmk: error in initialization file."⟩
  | 20 => ⟨LogLevel.error, "latexmk: probable bug or retcode from called program."⟩
  | _ => genericLogStatusCode statusCode stderr

/-- `LatexmkBuilder.run`: builds the args, executes the external process
(whose outcome `res` is an input of the model), logs via `logStatusCode`
exactly when the exit status is nonzero, and returns the raw status code.
The function is total: no exceptional exit exists on any status code. -/
def run (j : JobState) (res : ProcessResult) : Int × List LogCall :=
  let _args := constructArgs j
  if res.statusCode ≠ 0 then (res.statusCode, [logStatusCode res.statusCode res.stderr])
  else (res.statusCode, [])

/-- `LatexmkBuilder.checkRuntimeDependencies`: classify the `latexmk -v`
probe result and emit exactly one log message.  The version comparison is
the JS string `<`, i.e. lexicographic comparison. -/
def checkRuntimeDependencies (res : ProcessResult) : LogCall :=
  if res.statusCode ≠ 0 then
    ⟨LogLevel.error,
      "latexmk check failed with code " ++ toString res.statusCode ++
        " and response of \x22" ++ res.stderr ++ "\x22."⟩
  else
    match versionMatch res.stdout with
    | none =>
      ⟨LogLevel.warning,
        "latexmk check succeeded but with an unknown version response of \x22" ++
          res.stdout ++ "\x22."⟩
    | some version =>
      if jsStringLt version LATEXMK_MINIMUM_VERSION then
        ⟨LogLevel.warning,
          "latexmk check succeeded but with a version of " ++ version ++
            "\x22. Minimum version required is " ++ LATEXMK_MINIMUM_VERSION ++ "."⟩
      else
        ⟨LogLevel.info, "latexmk check succeeded. Found version " ++ version ++ "."⟩

/-- The argument-list transformation inside `LatexmkBuilder.execLatexmk`:
when the `latex.useRelativePaths` preference is on and `options.cwd` is
truthy, the final argument — a quoted source path — is unquoted, made
relative to the working directory, and re-quoted in place; otherwise the
list is left unchanged.  (The source indexes `args[args.length - 1]`;
callers always pass the non-empty list built by `constructArgs`.) -/
def execLatexmkArgs (useRelativePaths : Bool) (cwd : Option String)
    (args : List String) : List String :=
  match cwd with
  | some d =>
    if useRelativePaths ∧ d ≠ "" then
      args.dropLast ++
        [quotedArg (pathRelative d (sliceQuotes ((args.getLast?).getD (""))))]
    else args
  | none => args

/-- The command line built by `execLatexmk` after the optional rewrite:
`` `${this.executable} ${args.join(" ")}` `` with `executable = "latexmk"`. -/
def execLatexmkCommand (useRelativePaths : Bool) (cwd : Option String)
    (args : List String) : String :=
  "latexmk " ++ String.intercalate (" ") (execLatexmkArgs useRelativePaths cwd args)

/- ### Composer (modelled from the spec; composer.ts is not under src/) -/

/-- Settings-file property bag handed to
`Composer.initializeBuildStateFromProperties` (string-typed values; absent
keys are `none`).  Field names are the property keys of the alias chains. -/
structure SettingsProperties where
  cleanPatterns : Option (List String)
  enableExtendedBuildMode : Option Bool
  enableShellEscape : Option Bool
  enableSynctex : Option Bool
  jobNames : Option (List String)
  jobnames : Option (List String)
  jobname : Option String
  customEngine : Option String
  engine : Option String
  program : Option String
  moveResultToSourceDirectory : Option Bool
  outputFormat : Option String
  format : Option String
  outputDirectory : Option String
  output_directory : Option String
  producer : Option String

/-- The build-state option fields set by the configuration layers. -/
structure BuildState where
  engine : String
  outputFormat : String
  outputDirectory : String
  producer : String
  jobNames : List String
  cleanPatterns : List String
  enableShellEscape : Bool
  enableSynctex : Bool
  enableExtendedBuildMode : Bool
  moveResultToSourceDirectory : Bool

/-- Truthiness of an absent-or-empty list-valued property. -/
def optListTruthy (o : Option (List String)) : Bool :=
  match o with
  | some l => l != []
  | none => false

/-- Alias step for string properties: the first non-empty value wins. -/
def jsOrStr (a b : Option String) : Option String :=
  if optStrTruthy a then a else b

/-- Alias step for list properties: the first non-empty value wins. -/
def jsOrList (a b : Option (List String)) : Option (List String) :=
  if optListTruthy a then a else b

/-- Keep the prior value when the resolved property is absent. -/
def setStr (cur : String) (o : Option String) : String :=
  match o with
  | some v => v
  | none => cur

/-- Keep the prior value when the resolved property is absent. -/
def setList (cur : List String) (o : Option (List String)) : List String :=
  match o with
  | some v => v
  | none => cur

/-- Keep the prior value when the property is absent. -/
def setBool (cur : Bool) (o : Option Bool) : Bool :=
  match o with
  | some v => v
  | none => cur

/-- Modelled from the spec: `Composer.initializeBuildStateFromProperties`
(`composer.ts` is not under the sources here; behaviour per spec §4.1/§8 and
`src/spec/composer-spec.js`).  Each option is resolved through its alias
chain — `customEngine`/`engine`/`program`, `jobNames`/`jobnames`/`jobname`,
`outputFormat`/`format`, `outputDirectory`/`output_directory` — with the
first non-empty alias winning; a `jobname` string is wrapped into a
one-element list; an option with no non-empty alias keeps its prior value. -/
def initializeBuildStateFromProperties (s : BuildState) (p : SettingsProperties) :
    BuildState :=
  ⟨setStr s.engine (jsOrStr p.customEngine (jsOrStr p.engine p.program)),
    setStr s.outputFormat (jsOrStr p.outputFormat p.format),
    setStr s.outputDirectory (jsOrStr p.outputDirectory p.output_directory),
    setStr s.producer (jsOrStr p.producer none),
    setList s.jobNames
      (jsOrList p.jobNames
        (jsOrList p.jobnames
          (match p.jobname with
            | some n => if n ≠ "" then some [n] else none
            | none => none))),
    setList s.cleanPatterns (jsOrList p.cleanPatterns none),
    setBool s.enableShellEscape p.enableShellEscape,
    setBool s.enableSynctex p.enableSynctex,
    setBool s.enableExtendedBuildMode p.enableExtendedBuildMode,
    setBool s.moveResultToSourceDirectory p.moveResultToSourceDirectory⟩

/-- Modelled from the spec: `Composer.shouldMoveResult` (`composer.ts` is not
under the sources here; behaviour per the `shouldMoveResult` block of
`src/spec/composer-spec.js`): true exactly when the move option is on and an
output directory is in use. -/
def shouldMoveResult (j : JobState) : Bool :=
  j.moveResultToSourceDirectory && (j.outputDirectory != "")

/-- Modelled from the spec: `Composer.resolveOutputFilePath` (`composer.ts`
is not under the sources here; behaviour per spec §4.4.1 and
`src/spec/composer-spec.js`).  `parseLogAndFdb` stands for the effect of
`builder.parseLogAndFdbFiles` on the job state's output path: an
already-set path is returned without consulting it; otherwise its result is
used, `none` propagating as `none`; when the result should be moved to the
source directory the path is rewritten to its basename joined with the
source directory. -/
def resolveOutputFilePath (parseLogAndFdb : JobState → Option String)
    (j : JobState) : Option String :=
  match j.outputFilePath with
  | some p => some p
  | none =>
    match parseLogAndFdb j with
    | none => none
    | some p =>
      if shouldMoveResult j then
        some (pathJoin (pathDirname j.filePath) (pathBasename p))
      else some p

/- ### Package activation (src/lib/main.ts) -/

/-- One invocation of `Composer.build`.  The second parameter of
`build(shouldRebuild, shouldOpenResult = true)` is optional; its default
value `true` is modelled from the spec (§4.4), `composer.ts` being outside
the sources here. -/
structure ComposerBuildCall where
  shouldRebuild : Bool
  shouldOpenResult : Bool

/-- Apply the default of the optional `shouldOpenResult` parameter. -/
def composerBuildCall (shouldRebuild : Bool) (shouldOpenResult : Option Bool) :
    ComposerBuildCall :=
  ⟨shouldRebuild, shouldOpenResult.getD true⟩

/-- The `latex:build` command handler: `latex.composer.build(false)`. -/
def latexBuildCommand : ComposerBuildCall := composerBuildCall false none

/-- The `onDidSave` handler registered by `activate`: it calls
`latex.composer.build(false, false)` only when the saved editor is the
active editor and the `latex.buildOnSave` setting is on; otherwise no build
is triggered. -/
def onDidSaveBuild (isActiveEditor buildOnSave : Bool) : Option ComposerBuildCall :=
  if isActiveEditor && buildOnSave then some (composerBuildCall false (some false))
  else none

/- ### Derived shape predicates -/

/-- The possible forms of an element pushed by the engine-selection block. -/
def EngineShape (j : JobState) (a : String) : Prop :=
  a = latexFlag j.engine ∨ a = constructPdfProducerArgs j ∨ a = "-pdf" ∨
    a = "-dvi" ∨ a = "-ps" ∨ a = "-xelatex" ∨ a = "-lualatex" ∨
    a = pdflatexFlag j.engine

/-- The possible forms of any element of `constructArgs j`, each paired with
the condition under which its chunk is non-empty. -/
def ArgShape (j : JobState) (a : String) : Prop :=
  a ∈ baseArgs ∨
    (j.shouldRebuild = true ∧ a = "-g") ∨
    (∃ n, j.jobName = some n ∧ n ≠ "" ∧ a = jobnameFlag n) ∨
    (j.enableShellEscape = true ∧ a = "-shell-escape") ∨
    (j.enableSynctex = true ∧ a = "-synctex=1") ∨
    (j.enableExtendedBuildMode = true ∧ a = extendedFlag) ∨
    EngineShape j a ∨
    (j.outputDirectory ≠ "" ∧ a = outdirFlag j.outputDirectory) ∨
    a = quotedArg j.texFilePath

/-- An explicit engine-selection flag: the forms a reader of the argument
list recognizes as choosing the TeX engine. -/
def isEngineFlag (a : String) : Prop :=
  (∃ e, a = latexFlag e) ∨ (∃ e, a = pdflatexFlag e) ∨ a = "-xelatex" ∨ a = "-lualatex"

/- ### Concrete states used as witness inputs -/

/-- A default-configuration job: pdflatex producing pdf, no options on.
Fields: engine, outputFormat, producer, outputDirectory, jobName,
shouldRebuild, enableShellEscape, enableSynctex, enableExtendedBuildMode,
texFilePath, filePath, moveResultToSourceDirectory, outputFilePath. -/
def jPdflatex : JobState :=
  ⟨"pdflatex", "pdf", "dvipdfmx", "", none, false, false, false, false,
    "/proj/main.tex", "/proj/main.tex", false, none⟩

/-- A job exercising every conditional flag: platex to dvi, rebuild forced,
job name `foo`, all boolean options on, output directory `build`. -/
def jPlatex : JobState :=
  ⟨"platex", "dvi", "ps2pdf", "build", some ("foo"), true, true, true, true,
    "/proj/main.tex", "/proj/main.tex", false, none⟩

/-- A job whose producer is neither `ps2pdf` nor `dvipdf`. -/
def jProducer : JobState :=
  ⟨"platex", "pdf", "xdvipdfmx", "", none, false, false, false, false,
    "/proj/main.tex", "/proj/main.tex", false, none⟩

/-- A job whose job name is non-null but empty: JS truthiness makes the
`-jobname` guard skip it. -/
def jEmptyJobName : JobState :=
  ⟨"pdflatex", "pdf", "dvipdfmx", "", some (""), false, false, false, false,
    "/proj/main.tex", "/proj/main.tex", false, none⟩

/-- A job with an output directory and the move-result option on, output
path not yet resolved. -/
def jC8 : JobState :=
  ⟨"pdflatex", "pdf", "dvipdfmx", "bar", none, false, false, false, false,
    "/wibble/foo.tex", "/wibble/foo.tex", true, none⟩

/-- The property bag of the first-level-override test: every alias of every
chain present, first levels `primary`, lower levels `secondary`.
Fields: cleanPatterns, enableExtendedBuildMode, enableShellEscape,
enableSynctex, jobNames, jobnames, jobname, customEngine, engine, program,
moveResultToSourceDirectory, outputFormat, format, outputDirectory,
output_directory, producer. -/
def propsW : SettingsProperties :=
  ⟨none, none, none, none, some ["primary"], some ["secondary"], some ("secondary"),
    some ("primary"), some ("secondary"), some ("secondary"), none,
    some ("primary"), some ("secondary"), some ("primary"), some ("secondary"), none⟩

/-- A build state carrying the configuration defaults, used as the prior
layer under `propsW`.  Fields: engine, outputFormat, outputDirectory,
producer, jobNames, cleanPatterns, enableShellEscape, enableSynctex,
enableExtendedBuildMode, moveResultToSourceDirectory. -/
def stateW : BuildState :=
  ⟨"pdflatex", "pdf", "", "dvipdfmx", [], [], false, false, false, false⟩

/- ### Helper lemmas: discriminating flag shapes -/

lemma argPrefix_ne {n : Nat} {a b : String} {x y : List Char}
    (ha : argPrefix n a = x) (hb : argPrefix n b = y) (h : x ≠ y) : a ≠ b := by
  intro he
  apply h
  rw [← ha, ← hb, he]

lemma pair_eq {x y : Char} (h : (['-', x] : List Char) = ['-', y]) : x = y := by
  simp only [List.cons.injEq, and_true] at h
  exact h.2

lemma single_eq {x y : Char} (h : ([x] : List Char) = [y]) : x = y := by
  simp only [List.cons.injEq, and_true] at h
  exact h

lemma argPrefix2_jobnameFlag (n : String) : argPrefix 2 (jobnameFlag n) = ['-', 'j'] := rfl

lemma argPrefix2_outdirFlag (d : String) : argPrefix 2 (outdirFlag d) = ['-', 'o'] := rfl

lemma argPrefix2_latexFlag (e : String) : argPrefix 2 (latexFlag e) = ['-', 'l'] := rfl

lemma argPrefix2_pdflatexFlag (e : String) : argPrefix 2 (pdflatexFlag e) = ['-', 'p'] := rfl

lemma argPrefix5_pdflatexFlag (e : String) :
    argPrefix 5 (pdflatexFlag e) = ['-', 'p', 'd', 'f', 'l'] := rfl

lemma argPrefix1_quotedArg (p : String) : argPrefix 1 (quotedArg p) = ['"'] := rfl

lemma argPrefix1_jobnameFlag (n : String) : argPrefix 1 (jobnameFlag n) = ['-'] := rfl

lemma argPrefix1_outdirFlag (d : String) : argPrefix 1 (outdirFlag d) = ['-'] := rfl

lemma argPrefix1_latexFlag (e : String) : argPrefix 1 (latexFlag e) = ['-'] := rfl

lemma argPrefix1_pdflatexFlag (e : String) : argPrefix 1 (pdflatexFlag e) = ['-'] := rfl

lemma argPrefix2_producer (j : JobState) :
    argPrefix 2 (constructPdfProducerArgs j) = ['-', 'p'] := by
  unfold constructPdfProducerArgs
  split <;> rfl

lemma argPrefix1_producer (j : JobState) :
    argPrefix 1 (constructPdfProducerArgs j) = ['-'] := by
  unfold constructPdfProducerArgs
  split <;> rfl

lemma ne_of_ap2 {a b : String} {c d : Char}
    (ha : argPrefix 2 a = ['-', c]) (hb : argPrefix 2 b = ['-', d]) (hcd : c ≠ d) :
    a ≠ b :=
  argPrefix_ne ha hb (fun he => hcd (pair_eq he))

lemma ne_of_ap1 {a b : String} {c d : Char}
    (ha : argPrefix 1 a = [c]) (hb : argPrefix 1 b = [d]) (hcd : c ≠ d) : a ≠ b :=
  argPrefix_ne ha hb (fun he => hcd (single_eq he))

lemma jobnameFlag_inj {n m : String} (h : jobnameFlag n = jobnameFlag m) : n = m := by
  have hd := congrArg String.data h
  simp only [jobnameFlag, String.data_append] at hd
  exact String.ext (List.append_cancel_left (List.append_cancel_right hd))

lemma outdirFlag_inj {n m : String} (h : outdirFlag n = outdirFlag m) : n = m := by
  have hd := congrArg String.data h
  simp only [outdirFlag, String.data_append] at hd
  exact String.ext (List.append_cancel_left (List.append_cancel_right hd))

/- ### Helper lemmas: membership in the argument chunks -/

lemma mem_rebuildArgs {j : JobState} {a : String} (h : a ∈ rebuildArgs j) :
    j.shouldRebuild = true ∧ a = "-g" := by
  unfold rebuildArgs at h
  split at h
  · simp only [List.mem_singleton] at h
    exact ⟨by assumption, h⟩
  · simp at h

lemma mem_jobnameArgs {j : JobState} {a : String} (h : a ∈ jobnameArgs j) :
    ∃ n, j.jobName = some n ∧ n ≠ "" ∧ a = jobnameFlag n := by
  unfold jobnameArgs at h
  split at h
  · rename_i n hn
    split at h
    · rename_i hne
      simp only [List.mem_singleton] at h
      exact ⟨n, hn, hne, h⟩
    · simp at h
  · simp at h

lemma mem_shellEscapeArgs {j : JobState} {a : String} (h : a ∈ shellEscapeArgs j) :
    j.enableShellEscape = true ∧ a = "-shell-escape" := by
  unfold shellEscapeArgs at h
  split at h
  · simp only [List.mem_singleton] at h
    exact ⟨by assumption, h⟩
  · simp at h

lemma mem_synctexArgs {j : JobState} {a : String} (h : a ∈ synctexArgs j) :
    j.enableSynctex = true ∧ a = "-synctex=1" := by
  unfold synctexArgs at h
  split at h
  · simp only [List.mem_singleton] at h
    exact ⟨by assumption, h⟩
  · simp at h

lemma mem_extendedArgs {j : JobState} {a : String} (h : a ∈ extendedArgs j) :
    j.enableExtendedBuildMode = true ∧ a = extendedFlag := by
  unfold extendedArgs at h
  split at h
  · simp only [List.mem_singleton] at h
    exact ⟨by assumption, h⟩
  · simp at h

lemma mem_outdirArgs {j : JobState} {a : String} (h : a ∈ outdirArgs j) :
    j.outputDirectory ≠ "" ∧ a = outdirFlag j.outputDirectory := by
  unfold outdirArgs at h
  split at h
  · simp only [List.mem_singleton] at h
    exact ⟨by assumption, h⟩
  · simp at h

lemma pdfEngine_eq {e : String} (h : matchesPdfEnginePattern e = true) :
    e = "xelatex" ∨ e = "lualatex" := by
  unfold matchesPdfEnginePattern at h
  simpa using h

lemma mem_engineArgs {j : JobState} {a : String} (hWF : JobState.WF j)
    (h : a ∈ engineArgs j) : EngineShape j a := by
  unfold engineArgs at h
  unfold EngineShape
  split at h
  · simp only [List.mem_cons, List.mem_singleton, List.not_mem_nil, or_false] at h
    rcases h with h | h
    · exact Or.inl h
    · split at h
      · exact Or.inr (Or.inl h)
      · rcases hWF with hf | hf | hf <;> rw [hf] at h
        · exact Or.inr (Or.inr (Or.inl h))
        · exact Or.inr (Or.inr (Or.inr (Or.inl h)))
        · exact Or.inr (Or.inr (Or.inr (Or.inr (Or.inl h))))
  · split at h
    · rename_i hc
      simp only [List.mem_singleton] at h
      rcases pdfEngine_eq hc.2 with he | he <;> rw [he] at h
      · exact Or.inr (Or.inr (Or.inr (Or.inr (Or.inr (Or.inl h)))))
      · exact Or.inr (Or.inr (Or.inr (Or.inr (Or.inr (Or.inr (Or.inl h))))))
    · rcases List.mem_append.mp h with h | h
      · split at h
        · simp only [List.mem_singleton] at h
          exact Or.inr (Or.inr (Or.inr (Or.inr (Or.inr (Or.inr (Or.inr h))))))
        · simp at h
      · simp only [List.mem_singleton] at h
        rcases hWF with hf | hf | hf <;> rw [hf] at h
        · exact Or.inr (Or.inr (Or.inl h))
        · exact Or.inr (Or.inr (Or.inr (Or.inl h)))
        · exact Or.inr (Or.inr (Or.inr (Or.inr (Or.inl h))))

lemma shape_of_mem {j : JobState} {a : String} (hWF : JobState.WF j)
    (h : a ∈ constructArgs j) : ArgShape j a := by
  unfold constructArgs at h
  unfold ArgShape
  simp only [List.mem_append, List.mem_singleton] at h
  rcases h with ((((((((h | h) | h) | h) | h) | h) | h) | h) | h)
  · exact Or.inl h
  · exact Or.inr (Or.inl (mem_rebuildArgs h))
  · exact Or.inr (Or.inr (Or.inl (mem_jobnameArgs h)))
  · exact Or.inr (Or.inr (Or.inr (Or.inl (mem_shellEscapeArgs h))))
  · exact Or.inr (Or.inr (Or.inr (Or.inr (Or.inl (mem_synctexArgs h)))))
  · exact Or.inr (Or.inr (Or.inr (Or.inr (Or.inr (Or.inl (mem_extendedArgs h))))))
  · exact Or.inr (Or.inr (Or.inr (Or.inr (Or.inr (Or.inr (Or.inl (mem_engineArgs hWF h)))))))
  · exact Or.inr (Or.inr (Or.inr (Or.inr (Or.inr (Or.inr (Or.inr (Or.inl (mem_outdirArgs h))))))))
  · exact Or.inr (Or.inr (Or.inr (Or.inr (Or.inr (Or.inr (Or.inr (Or.inr h)))))))

lemma rebuildArgs_subset (j : JobState) : rebuildArgs j ⊆ constructArgs j := by
  intro x hx
  unfold constructArgs
  simp only [List.mem_append, List.mem_singleton]
  tauto

lemma jobnameArgs_subset (j : JobState) : jobnameArgs j ⊆ constructArgs j := by
  intro x hx
  unfold constructArgs
  simp only [List.mem_append, List.mem_singleton]
  tauto

lemma shellEscapeArgs_subset (j : JobState) : shellEscapeArgs j ⊆ constructArgs j := by
  intro x hx
  unfold constructArgs
  simp only [List.mem_append, List.mem_singleton]
  tauto

lemma synctexArgs_subset (j : JobState) : synctexArgs j ⊆ constructArgs j := by
  intro x hx
  unfold constructArgs
  simp only [List.mem_append, List.mem_singleton]
  tauto

lemma extendedArgs_subset (j : JobState) : extendedArgs j ⊆ constructArgs j := by
  intro x hx
  unfold constructArgs
  simp only [List.mem_append, List.mem_singleton]
  tauto

lemma engineArgs_subset (j : JobState) : engineArgs j ⊆ constructArgs j := by
  intro x hx
  unfold constructArgs
  simp only [List.mem_append, List.mem_singleton]
  tauto

lemma outdirArgs_subset (j : JobState) : outdirArgs j ⊆ constructArgs j := by
  intro x hx
  unfold constructArgs
  simp only [List.mem_append, List.mem_singleton]
  tauto

/- ### Helper lemmas: which flags cannot arise from which chunks -/

lemma not_engineShape {j : JobState} {a : String} {c : Char}
    (ha : argPrefix 2 a = ['-', c])
    (hl : c ≠ 'l') (hp : c ≠ 'p') (hd : c ≠ 'd') (hx : c ≠ 'x') :
    ¬ EngineShape j a := by
  unfold EngineShape
  rintro (h | h | h | h | h | h | h | h) <;> subst h
  · rw [argPrefix2_latexFlag] at ha
    exact hl (pair_eq ha).symm
  · rw [argPrefix2_producer] at ha
    exact hp (pair_eq ha).symm
  · exact hp (pair_eq (show (['-', 'p'] : List Char) = ['-', c] from ha)).symm
  · exact hd (pair_eq (show (['-', 'd'] : List Char) = ['-', c] from ha)).symm
  · exact hp (pair_eq (show (['-', 'p'] : List Char) = ['-', c] from ha)).symm
  · exact hx (pair_eq (show (['-', 'x'] : List Char) = ['-', c] from ha)).symm
  · exact hl (pair_eq (show (['-', 'l'] : List Char) = ['-', c] from ha)).symm
  · rw [argPrefix2_pdflatexFlag] at ha
    exact hp (pair_eq ha).symm

lemma shape_g {j : JobState} (h : ArgShape j "-g") : j.shouldRebuild = true := by
  unfold ArgShape at h
  rcases h with h | h | h | h | h | h | h | h | h
  · exact absurd h (by decide)
  · exact h.1
  · obtain ⟨n, _, _, hn⟩ := h
    exact absurd hn (ne_of_ap2 rfl (argPrefix2_jobnameFlag n) (by decide))
  · exact absurd h.2 (by decide)
  · exact absurd h.2 (by decide)
  · exact absurd h.2 (by decide)
  · exact absurd h (not_engineShape rfl (by decide) (by decide) (by decide) (by decide))
  · exact absurd h.2 (ne_of_ap2 rfl (argPrefix2_outdirFlag _) (by decide))
  · exact absurd h (ne_of_ap1 rfl (argPrefix1_quotedArg _) (by decide))

lemma shape_shellEscape {j : JobState} (h : ArgShape j "-shell-escape") :
    j.enableShellEscape = true := by
  unfold ArgShape at h
  rcases h with h | h | h | h | h | h | h | h | h
  · exact absurd h (by decide)
  · exact absurd h.2 (by decide)
  · obtain ⟨n, _, _, hn⟩ := h
    exact absurd hn (ne_of_ap2 rfl (argPrefix2_jobnameFlag n) (by decide))
  · exact h.1
  · exact absurd h.2 (by decide)
  · exact absurd h.2 (by decide)
  · exact absurd h (not_engineShape rfl (by decide) (by decide) (by decide) (by decide))
  · exact absurd h.2 (ne_of_ap2 rfl (argPrefix2_outdirFlag _) (by decide))
  · exact absurd h (ne_of_ap1 rfl (argPrefix1_quotedArg _) (by decide))

lemma shape_synctex {j : JobState} (h : ArgShape j "-synctex=1") :
    j.enableSynctex = true := by
  unfold ArgShape at h
  rcases h with h | h | h | h | h | h | h | h | h
  · exact absurd h (by decide)
  · exact absurd h.2 (by decide)
  · obtain ⟨n, _, _, hn⟩ := h
    exact absurd hn (ne_of_ap2 rfl (argPrefix2_jobnameFlag n) (by decide))
  · exact absurd h.2 (by decide)
  · exact h.1
  · exact absurd h.2 (by decide)
  · exact absurd h (not_engineShape rfl (by decide) (by decide) (by decide) (by decide))
  · exact absurd h.2 (ne_of_ap2 rfl (argPrefix2_outdirFlag _) (by decide))
  · exact absurd h (ne_of_ap1 rfl (argPrefix1_quotedArg _) (by decide))

lemma shape_extended {j : JobState} (h : ArgShape j extendedFlag) :
    j.enableExtendedBuildMode = true := by
  unfold ArgShape at h
  rcases h with h | h | h | h | h | h | h | h | h
  · exact absurd h (by decide)
  · exact absurd h.2 (by decide)
  · obtain ⟨n, _, _, hn⟩ := h
    exact absurd hn (ne_of_ap2 rfl (argPrefix2_jobnameFlag n) (by decide))
  · exact absurd h.2 (by decide)
  · exact absurd h.2 (by decide)
  · exact h.1
  · exact absurd h (not_engineShape rfl (by decide) (by decide) (by decide) (by decide))
  · exact absurd h.2 (ne_of_ap2 rfl (argPrefix2_outdirFlag _) (by decide))
  · exact absurd h (ne_of_ap1 rfl (argPrefix1_quotedArg _) (by decide))

lemma shape_jobname {j : JobState} {n : String} (h : ArgShape j (jobnameFlag n)) :
    j.jobName = some n ∧ n ≠ "" := by
  unfold ArgShape at h
  rcases h with h | h | h | h | h | h | h | h | h
  · simp only [baseArgs, List.mem_cons, List.not_mem_nil, or_false] at h
    rcases h with h | h | h | h <;>
      exact absurd h (ne_of_ap2 (argPrefix2_jobnameFlag n) rfl (by decide))
  · exact absurd h.2 (ne_of_ap2 (argPrefix2_jobnameFlag n) rfl (by decide))
  · obtain ⟨m, hm, hne, heq⟩ := h
    obtain rfl : n = m := jobnameFlag_inj heq
    exact ⟨hm, hne⟩
  · exact absurd h.2 (ne_of_ap2 (argPrefix2_jobnameFlag n) rfl (by decide))
  · exact absurd h.2 (ne_of_ap2 (argPrefix2_jobnameFlag n) rfl (by decide))
  · exact absurd h.2 (ne_of_ap2 (argPrefix2_jobnameFlag n) rfl (by decide))
  · exact absurd h
      (not_engineShape (argPrefix2_jobnameFlag n) (by decide) (by decide) (by decide) (by decide))
  · exact absurd h.2 (ne_of_ap2 (argPrefix2_jobnameFlag n) (argPrefix2_outdirFlag _) (by decide))
  · exact absurd h (ne_of_ap1 (argPrefix1_jobnameFlag n) (argPrefix1_quotedArg _) (by decide))

lemma shape_outdir {j : JobState} {d : String} (h : ArgShape j (outdirFlag d)) :
    j.outputDirectory = d ∧ d ≠ "" := by
  unfold ArgShape at h
  rcases h with h | h | h | h | h | h | h | h | h
  · simp only [baseArgs, List.mem_cons, List.not_mem_nil, or_false] at h
    rcases h with h | h | h | h <;>
      exact absurd h (ne_of_ap2 (argPrefix2_outdirFlag d) rfl (by decide))
  · exact absurd h.2 (ne_of_ap2 (argPrefix2_outdirFlag d) rfl (by decide))
  · obtain ⟨m, _, _, heq⟩ := h
    exact absurd heq (ne_of_ap2 (argPrefix2_outdirFlag d) (argPrefix2_jobnameFlag m) (by decide))
  · exact absurd h.2 (ne_of_ap2 (argPrefix2_outdirFlag d) rfl (by decide))
  · exact absurd h.2 (ne_of_ap2 (argPrefix2_outdirFlag d) rfl (by decide))
  · exact absurd h.2 (ne_of_ap2 (argPrefix2_outdirFlag d) rfl (by decide))
  · exact absurd h
      (not_engineShape (argPrefix2_outdirFlag d) (by decide) (by decide) (by decide) (by decide))
  · obtain ⟨hne, heq⟩ := h
    obtain rfl : d = j.outputDirectory := outdirFlag_inj heq
    exact ⟨rfl, hne⟩
  · exact absurd h (ne_of_ap1 (argPrefix1_outdirFlag d) (argPrefix1_quotedArg _) (by decide))

/- ### Helper lemmas: the engine block on the three claimed configurations -/

lemma engineArgs_pdflatex_pdf {j : JobState} (he : j.engine = "pdflatex")
    (hf : j.outputFormat = "pdf") : engineArgs j = ["-pdf"] := by
  unfold engineArgs
  rw [he, hf]
  have h1 : matchesLatexPattern ("pdflatex") = false := by decide
  have h2 : matchesPdfEnginePattern ("pdflatex") = false := by decide
  simp [h1, h2]

lemma engineArgs_xelatex_pdf {j : JobState} (he : j.engine = "xelatex")
    (hf : j.outputFormat = "pdf") : engineArgs j = ["-xelatex"] := by
  unfold engineArgs
  rw [he, hf]
  have h1 : matchesLatexPattern ("xelatex") = false := by decide
  have h2 : matchesPdfEnginePattern ("xelatex") = true := by decide
  simp [h1, h2]

lemma engineArgs_platex_dvi {j : JobState} (he : j.engine = "platex")
    (hf : j.outputFormat = "dvi") : engineArgs j = [latexFlag ("platex"), "-dvi"] := by
  unfold engineArgs
  rw [he, hf]
  have h1 : matchesLatexPattern ("platex") = true := by decide
  simp [h1]

/- ### Helper lemmas: flags that are not engine flags -/

lemma not_isEngineFlag_of_ap2 {a : String} {c : Char}
    (ha : argPrefix 2 a = ['-', c]) (hl : c ≠ 'l') (hp : c ≠ 'p') (hx : c ≠ 'x') :
    ¬ isEngineFlag a := by
  unfold isEngineFlag
  rintro (⟨e, h⟩ | ⟨e, h⟩ | h | h) <;> subst h
  · rw [argPrefix2_latexFlag] at ha
    exact hl (pair_eq ha).symm
  · rw [argPrefix2_pdflatexFlag] at ha
    exact hp (pair_eq ha).symm
  · exact hx (pair_eq (show (['-', 'x'] : List Char) = ['-', c] from ha)).symm
  · exact hl (pair_eq (show (['-', 'l'] : List Char) = ['-', c] from ha)).symm

lemma not_isEngineFlag_of_ap1 {a : String} {c : Char}
    (ha : argPrefix 1 a = [c]) (hc : c ≠ '-') : ¬ isEngineFlag a := by
  unfold isEngineFlag
  rintro (⟨e, h⟩ | ⟨e, h⟩ | h | h) <;> subst h
  · rw [argPrefix1_latexFlag] at ha
    exact hc (single_eq ha).symm
  · rw [argPrefix1_pdflatexFlag] at ha
    exact hc (single_eq ha).symm
  · exact hc (single_eq (show (['-'] : List Char) = [c] from ha)).symm
  · exact hc (single_eq (show (['-'] : List Char) = [c] from ha)).symm

lemma not_isEngineFlag_pdf : ¬ isEngineFlag "-pdf" := by
  unfold isEngineFlag
  rintro (⟨e, h⟩ | ⟨e, h⟩ | h | h)
  · exact absurd h (ne_of_ap2 rfl (argPrefix2_latexFlag e) (by decide))
  · exact absurd h (@argPrefix_ne 5 _ _ _ _ rfl (argPrefix5_pdflatexFlag e) (by decide))
  · exact absurd h (by decide)
  · exact absurd h (by decide)

/- ### Helper lemmas: list shape of the whole argument vector -/

lemma constructArgs_getLast (j : JobState) :
    (constructArgs j).getLast? = some (quotedArg j.texFilePath) := by
  unfold constructArgs
  simp

lemma constructArgs_take4 (j : JobState) :
    (constructArgs j).take 4 = ["-interaction=nonstopmode", "-f", "-cd", "-file-line-error"] := rfl

/- ### Helper lemmas: the JS string order is the lexicographic list order -/

lemma jsLtChars_iff_lex (as bs : List Char) :
    jsLtChars as bs = true ↔ List.Lex (· < ·) as bs := by
  induction as generalizing bs with
  | nil =>
    cases bs with
    | nil => simp [jsLtChars]
    | cons b bs => simp [jsLtChars]; exact List.Lex.nil
  | cons a as ih =>
    cases bs with
    | nil => simp [jsLtChars]
    | cons b bs =>
      simp only [jsLtChars]
      split_ifs with h1 h2
      · simp
        exact List.Lex.rel h1
      · simp
        intro h
        cases h with
        | cons h => exact absurd rfl (ne_of_gt h2)
        | rel h => exact absurd h h1
      · have heq : a = b := le_antisymm (not_lt.mp h2) (not_lt.mp h1)
        subst heq
        rw [ih]
        constructor
        · exact fun h => List.Lex.cons h
        · intro h
          cases h with
          | cons h => exact h
          | rel h => exact absurd h h1

/- ### Helper lemmas: unquoting the final argument -/

lemma sliceQuotes_quotedArg (s : String) : sliceQuotes (quotedArg s) = s := by
  obtain ⟨d⟩ := s
  show String.mk ((("\x22".data ++ d) ++ "\x22".data).drop 1).dropLast = ⟨d⟩
  simp

/- ### Claim theorems -/

/-- Claim C4: for every JobState, `run` returns the raw exit code of the
external process to its caller and never throws on a nonzero exit (the
model is a total function); when the exit code is nonzero it logs the
structured error description produced by `logStatusCode`, and when the exit
code is zero it logs nothing. -/
theorem c4_run_returns_raw_exit_code (j : JobState) (res : ProcessResult) :
    (run j res).1 = res.statusCode
    ∧ (res.statusCode ≠ 0 → (run j res).2 = [logStatusCode res.statusCode res.stderr])
    ∧ (res.statusCode = 0 → (run j res).2 = []) := by
  unfold run
  by_cases h : res.statusCode = 0
  · simp [h]
  · simp [h]

/-- Witness for C4 at a concrete failing process result. -/
theorem c4_run_witness :
    (run jPdflatex ⟨12, "", "boom"⟩).1 = 12
    ∧ (run jPdflatex ⟨12, "", "boom"⟩).2 = [logStatusCode 12 ("boom")] :=
  ⟨(c4_run_returns_raw_exit_code jPdflatex ⟨12, "", "boom"⟩).1,
    (c4_run_returns_raw_exit_code jPdflatex ⟨12, "", "boom"⟩).2.1 (by decide)⟩

/-- Claim C5: `logStatusCode` maps exit code 10 to the bad-command-line
error, 11 to file-not-found, 12 to failure-making-files, 13 to the
initialization-file error, 20 to the probable-bug/propagated-return-code
error, and every other code falls through to the generic base-class
handler. -/
theorem c5_logStatusCode_taxonomy (stderr : String) :
    logStatusCode 10 stderr = ⟨LogLevel.error, "latexmk: Bad command line arguments."⟩
    ∧ logStatusCode 11 stderr =
        ⟨LogLevel.error,
          "latexmk: File specified on command line not found or other file not found."⟩
    ∧ logStatusCode 12 stderr =
        ⟨LogLevel.error, "latexmk: Failure in some part of making files."⟩
    ∧ logStatusCode 13 stderr = ⟨LogLevel.error, "latexmk: error in initialization file."⟩
    ∧ logStatusCode 20 stderr =
        ⟨LogLevel.error, "latexmk: probable bug or retcode from called program."⟩
    ∧ (∀ c : Int, c ≠ 10 → c ≠ 11 → c ≠ 12 → c ≠ 13 → c ≠ 20 →
        logStatusCode c stderr = genericLogStatusCode c stderr) := by
  refine ⟨rfl, rfl, rfl, rfl, rfl, ?_⟩
  intro c h10 h11 h12 h13 h20
  unfold logStatusCode
  split
  · exact absurd rfl h10
  · exact absurd rfl h11
  · exact absurd rfl h12
  · exact absurd rfl h13
  · exact absurd rfl h20
  · rfl

/-- Witness for C5 at the unlisted exit code 21. -/
theorem c5_witness : logStatusCode 21 ("x") = genericLogStatusCode 21 ("x") :=
  (c5_logStatusCode_taxonomy ("x")).2.2.2.2.2 21 (by decide) (by decide) (by decide)
    (by decide) (by decide)

/-- Claim C9: `constructPdfProducerArgs` selects the producer flag by a
three-way case on the producer: `ps2pdf` yields the fixed `-pdfps` flag;
`dvipdf` yields `-pdfdvi` with the canned `$dvipdf` converter-command
override; any other producer yields `-pdfdvi` with the generic templated
override. -/
theorem c9_constructPdfProducerArgs (j : JobState) :
    (j.producer = "ps2pdf" → constructPdfProducerArgs j = "-pdfps")
    ∧ (j.producer = "dvipdf" →
        constructPdfProducerArgs j = "-pdfdvi -e \x22$dvipdf = \x27dvipdf %O %S %D\x27;\x22")
    ∧ (j.producer ≠ "ps2pdf" → j.producer ≠ "dvipdf" →
        constructPdfProducerArgs j =
          "-pdfdvi -e \x22$dvipdf = \x27" ++ j.producer ++ " %O -o %D %S\x27;\x22") := by
  refine ⟨?_, ?_, ?_⟩
  · intro h
    unfold constructPdfProducerArgs
    rw [h]
    decide
  · intro h
    unfold constructPdfProducerArgs
    rw [h]
    decide
  · intro h1 h2
    unfold constructPdfProducerArgs
    split
    · rename_i h
      exact absurd h h1
    · rename_i h
      exact absurd h h2
    · rfl

/-- Witness for C9 at the default producer `xdvipdfmx`. -/
theorem c9_witness :
    constructPdfProducerArgs jProducer =
      "-pdfdvi -e \x22$dvipdf = \x27xdvipdfmx %O -o %D %S\x27;\x22" :=
  (c9_constructPdfProducerArgs jProducer).2.2 (by decide) (by decide)

/-- Claim C10: a save-triggered build fires only when the saved editor is
the active editor and `latex.buildOnSave` is set, and it always invokes
`Composer.build` with `shouldOpenResult = false`; the explicit `latex:build`
command uses the default `shouldOpenResult = true`. -/
theorem c10_build_on_save :
    (∀ (isActiveEditor buildOnSave : Bool) (c : ComposerBuildCall),
      onDidSaveBuild isActiveEditor buildOnSave = some c →
        c.shouldRebuild = false ∧ c.shouldOpenResult = false)
    ∧ (∀ isActiveEditor buildOnSave : Bool,
      (onDidSaveBuild isActiveEditor buildOnSave).isSome = true ↔
        isActiveEditor = true ∧ buildOnSave = true)
    ∧ latexBuildCommand.shouldRebuild = false
    ∧ latexBuildCommand.shouldOpenResult = true := by
  refine ⟨?_, ?_, rfl, rfl⟩
  · intro a b c h
    unfold onDidSaveBuild at h
    split at h
    · simp only [Option.some.injEq] at h
      subst h
      exact ⟨rfl, rfl⟩
    · simp at h
  · intro a b
    unfold onDidSaveBuild
    cases a <;> cases b <;> simp

/-- Witness for C10: the save handler's build call at a concrete active
editor with the setting on. -/
theorem c10_witness :
    (composerBuildCall false (some false)).shouldRebuild = false
    ∧ (composerBuildCall false (some false)).shouldOpenResult = false :=
  c10_build_on_save.1 true true (composerBuildCall false (some false)) rfl

/-- Claim C7: when the use-relative-paths preference is enabled and a
working directory is set, `execLatexmk` rewrites the final argument of the
argument list from a quoted absolute source path to the quoted path
relative to the working directory (before the command line is assembled
from the list); when the preference is disabled the argument list passes
through unchanged. -/
theorem c7_execLatexmk_relative_paths :
    (∀ (d src : String) (pre : List String), d ≠ "" →
      execLatexmkArgs true (some d) (pre ++ [quotedArg src]) =
        pre ++ [quotedArg (pathRelative d src)])
    ∧ (∀ (cwd : Option String) (args : List String),
        execLatexmkArgs false cwd args = args) := by
  constructor
  · intro d src pre hd
    simp only [execLatexmkArgs]
    rw [if_pos (⟨trivial, hd⟩ : True ∧ d ≠ "")]
    simp [sliceQuotes_quotedArg]
  · intro cwd args
    cases cwd with
    | none => rfl
    | some d => simp [execLatexmkArgs]

/-- Witness for C7 at a concrete working directory and source path. -/
theorem c7_witness :
    ("/proj" : String) ≠ ""
    ∧ execLatexmkArgs true (some ("/proj")) (["-pdf"] ++ [quotedArg ("/proj/sub/file.tex")]) =
        ["-pdf"] ++ [quotedArg (pathRelative ("/proj") ("/proj/sub/file.tex"))]
    ∧ pathRelative ("/proj") ("/proj/sub/file.tex") = "sub/file.tex" :=
  ⟨by decide,
    c7_execLatexmk_relative_paths.1 ("/proj") ("/proj/sub/file.tex") ["-pdf"] (by decide),
    by decide⟩

/-- Claim C8: `resolveOutputFilePath` returns an already-set
`jobState.outputFilePath` without invoking the parser (the result does not
depend on the parser at all in that case); otherwise it consults
`parseLogAndFdbFiles`, returning null — not throwing — when that yields no
path; and when `moveResultToSourceDirectory` is set together with an output
directory, the parser-resolved path is rewritten to its basename joined
with the source directory. -/
theorem c8_resolveOutputFilePath_contract :
    (∀ (parse : JobState → Option String) (j : JobState) (p : String),
      j.outputFilePath = some p → resolveOutputFilePath parse j = some p)
    ∧ (∀ (parse1 parse2 : JobState → Option String) (j : JobState),
      (j.outputFilePath).isSome = true →
        resolveOutputFilePath parse1 j = resolveOutputFilePath parse2 j)
    ∧ (∀ (parse : JobState → Option String) (j : JobState),
      j.outputFilePath = none → parse j = none → resolveOutputFilePath parse j = none)
    ∧ (∀ (parse : JobState → Option String) (j : JobState) (p : String),
      j.outputFilePath = none → parse j = some p → shouldMoveResult j = true →
        resolveOutputFilePath parse j =
          some (pathJoin (pathDirname j.filePath) (pathBasename p)))
    ∧ (∀ (parse : JobState → Option String) (j : JobState) (p : String),
      j.outputFilePath = none → parse j = some p → shouldMoveResult j = false →
        resolveOutputFilePath parse j = some p) := by
  refine ⟨?_, ?_, ?_, ?_, ?_⟩
  · intro parse j p h
    unfold resolveOutputFilePath
    rw [h]
  · intro parse1 parse2 j h
    obtain ⟨p, hp⟩ := Option.isSome_iff_exists.mp h
    unfold resolveOutputFilePath
    rw [hp]
  · intro parse j h hp
    unfold resolveOutputFilePath
    rw [h, hp]
  · intro parse j p h hp hm
    unfold resolveOutputFilePath
    rw [h, hp]
    simp [hm]
  · intro parse j p h hp hm
    unfold resolveOutputFilePath
    rw [h, hp]
    simp [hm]

/-- Witness for C8: with an output directory `bar` and the move option on,
a parser result `bar/foo.pdf` resolves to `foo.pdf` in the source
directory `/wibble`. -/
theorem c8_witness :
    jC8.outputFilePath = none ∧ shouldMoveResult jC8 = true
    ∧ resolveOutputFilePath (fun _ => some ("bar/foo.pdf")) jC8 = some ("/wibble/foo.pdf") := by
  refine ⟨rfl, by decide, ?_⟩
  have h := c8_resolveOutputFilePath_contract.2.2.2.1 (fun _ => some ("bar/foo.pdf")) jC8
    ("bar/foo.pdf") rfl rfl (by decide)
  rw [h]
  decide

/-- Claim C1: `initializeBuildStateFromProperties` resolves each option
through its alias chain with the first non-empty alias winning: with
`customEngine`, `engine` and `program` all present the engine is set to
`customEngine`'s value (and when `customEngine` is absent, `engine` beats
`program`, and `program` alone is still applied); `jobNames` beats
`jobnames` beats `jobname`; `outputFormat` beats `format`;
`outputDirectory` beats `output_directory`. -/
theorem c1_alias_precedence :
    (∀ (s : BuildState) (p : SettingsProperties) (ce e1 pr : String)
        (jl1 jl2 : List String) (jn f1 f2 d1 d2 : String),
      p.customEngine = some ce → ce ≠ "" → p.engine = some e1 → e1 ≠ "" →
      p.program = some pr → pr ≠ "" →
      p.jobNames = some jl1 → jl1 ≠ [] → p.jobnames = some jl2 → jl2 ≠ [] →
      p.jobname = some jn → jn ≠ "" →
      p.outputFormat = some f1 → f1 ≠ "" → p.format = some f2 → f2 ≠ "" →
      p.outputDirectory = some d1 → d1 ≠ "" → p.output_directory = some d2 → d2 ≠ "" →
        (initializeBuildStateFromProperties s p).engine = ce
        ∧ (initializeBuildStateFromProperties s p).jobNames = jl1
        ∧ (initializeBuildStateFromProperties s p).outputFormat = f1
        ∧ (initializeBuildStateFromProperties s p).outputDirectory = d1)
    ∧ (∀ (s : BuildState) (p : SettingsProperties) (e1 pr : String),
      p.customEngine = none → p.engine = some e1 → e1 ≠ "" → p.program = some pr →
        (initializeBuildStateFromProperties s p).engine = e1)
    ∧ (∀ (s : BuildState) (p : SettingsProperties) (pr : String),
      p.customEngine = none → p.engine = none → p.program = some pr → pr ≠ "" →
        (initializeBuildStateFromProperties s p).engine = pr) := by
  refine ⟨?_, ?_, ?_⟩
  · intro s p ce e1 pr jl1 jl2 jn f1 f2 d1 d2 h1 h2 h3 h4 h5 h6 h7 h8 h9 h10
      h11 h12 h13 h14 h15 h16 h17 h18 h19 h20
    unfold initializeBuildStateFromProperties
    refine ⟨?_, ?_, ?_, ?_⟩ <;>
      simp [jsOrStr, jsOrList, optStrTruthy, optListTruthy, setStr, setList,
        h1, h2, h7, h8, h13, h14, h17, h18]
  · intro s p e1 pr h1 h2 h3 h4
    unfold initializeBuildStateFromProperties
    simp [jsOrStr, optStrTruthy, setStr, h1, h2, h3]
  · intro s p pr h1 h2 h3 h4
    unfold initializeBuildStateFromProperties
    simp [jsOrStr, optStrTruthy, setStr, h1, h2, h3, h4]

/-- Witness for C1: the first-level-override property bag of the test suite
resolves every chain to the first-level `primary` value. -/
theorem c1_witness :
    (initializeBuildStateFromProperties stateW propsW).engine = "primary"
    ∧ (initializeBuildStateFromProperties stateW propsW).jobNames = ["primary"]
    ∧ (initializeBuildStateFromProperties stateW propsW).outputFormat = "primary"
    ∧ (initializeBuildStateFromProperties stateW propsW).outputDirectory = "primary" :=
  c1_alias_precedence.1 stateW propsW ("primary") ("secondary") ("secondary")
    ["primary"] ["secondary"] ("secondary") ("primary") ("secondary") ("primary")
    ("secondary") rfl (by decide) rfl (by decide) rfl (by decide) rfl (by decide)
    rfl (by decide) rfl (by decide) rfl (by decide) rfl (by decide) rfl (by decide)
    rfl (by decide)

/-- Claim C6: `checkRuntimeDependencies` classifies the probe result into
exactly one of four mutually exclusive outcomes — nonzero exit logs an
error; zero exit with unparsable version output logs a warning; zero exit
with a parsed version lexically below the fixed minimum logs a warning;
otherwise it logs an info message — and the below-minimum test is lexical
string comparison (the JS `<`, equal to the lexicographic order on the
character lists), not numeric comparison: the numerically larger version
10.12 is still classified below the minimum 4.37. -/
theorem c6_checkRuntimeDependencies_classification :
    (∀ res : ProcessResult,
      ((checkRuntimeDependencies res).level = LogLevel.error ↔ res.statusCode ≠ 0)
      ∧ ((checkRuntimeDependencies res).level = LogLevel.warning ↔
          (res.statusCode = 0 ∧ (versionMatch res.stdout = none ∨
            ∃ v, versionMatch res.stdout = some v ∧
              jsStringLt v LATEXMK_MINIMUM_VERSION = true)))
      ∧ ((checkRuntimeDependencies res).level = LogLevel.info ↔
          (res.statusCode = 0 ∧ ∃ v, versionMatch res.stdout = some v ∧
            jsStringLt v LATEXMK_MINIMUM_VERSION = false)))
    ∧ (∀ v m : String, jsStringLt v m = true ↔ List.Lex (· < ·) v.data m.data)
    ∧ versionMatch ("Latexmk, John Collins, 29 September 2020. Version 10.12") =
        some ("10.12")
    ∧ (checkRuntimeDependencies
        ⟨0, "Latexmk, John Collins, 29 September 2020. Version 10.12", ""⟩).level =
        LogLevel.warning := by
  refine ⟨?_, fun v m => jsLtChars_iff_lex v.data m.data, by decide, by decide⟩
  intro res
  unfold checkRuntimeDependencies
  by_cases h0 : res.statusCode = 0
  · rw [if_neg (by simp [h0])]
    cases hv : versionMatch res.stdout with
    | none =>
      refine ⟨?_, ?_, ?_⟩ <;> simp [h0, hv]
    | some v =>
      cases hlt : jsStringLt v LATEXMK_MINIMUM_VERSION with
      | true => refine ⟨?_, ?_, ?_⟩ <;> simp [h0, hv, hlt]
      | false => refine ⟨?_, ?_, ?_⟩ <;> simp [h0, hv, hlt]
  · rw [if_pos h0]
    refine ⟨?_, ?_, ?_⟩ <;> simp [h0]

/-- Claim C2: the engine branching of `constructArgs`: with engine
`pdflatex` and output format `pdf` the argument list contains the plain
`-pdf` flag and no explicit engine flag; with engine `xelatex` and format
`pdf` it contains the short `-xelatex` flag; with engine `platex` and
format `dvi` it contains `-latex="platex"` immediately followed by `-dvi`. -/
theorem c2_engine_flag_branching (j : JobState) :
    (j.engine = "pdflatex" → j.outputFormat = "pdf" →
      ("-pdf" ∈ constructArgs j ∧ ∀ a ∈ constructArgs j, ¬ isEngineFlag a))
    ∧ (j.engine = "xelatex" → j.outputFormat = "pdf" → "-xelatex" ∈ constructArgs j)
    ∧ (j.engine = "platex" → j.outputFormat = "dvi" →
        List.IsInfix [latexFlag ("platex"), "-dvi"] (constructArgs j)) := by
  refine ⟨?_, ?_, ?_⟩
  · intro he hf
    have hE := engineArgs_pdflatex_pdf he hf
    constructor
    · exact engineArgs_subset j (by rw [hE]; simp)
    · intro a ha
      unfold constructArgs at ha
      simp only [List.mem_append, List.mem_singleton] at ha
      rcases ha with ((((((((h | h) | h) | h) | h) | h) | h) | h) | h)
      · simp only [baseArgs, List.mem_cons, List.not_mem_nil, or_false] at h
        rcases h with h | h | h | h <;> subst h <;>
          exact not_isEngineFlag_of_ap2 rfl (by decide) (by decide) (by decide)
      · obtain ⟨_, h⟩ := mem_rebuildArgs h
        subst h
        exact not_isEngineFlag_of_ap2 rfl (by decide) (by decide) (by decide)
      · obtain ⟨n, _, _, h⟩ := mem_jobnameArgs h
        subst h
        exact not_isEngineFlag_of_ap2 (argPrefix2_jobnameFlag n) (by decide) (by decide)
          (by decide)
      · obtain ⟨_, h⟩ := mem_shellEscapeArgs h
        subst h
        exact not_isEngineFlag_of_ap2 rfl (by decide) (by decide) (by decide)
      · obtain ⟨_, h⟩ := mem_synctexArgs h
        subst h
        exact not_isEngineFlag_of_ap2 rfl (by decide) (by decide) (by decide)
      · obtain ⟨_, h⟩ := mem_extendedArgs h
        subst h
        exact not_isEngineFlag_of_ap2 rfl (by decide) (by decide) (by decide)
      · rw [hE] at h
        simp only [List.mem_singleton] at h
        subst h
        exact not_isEngineFlag_pdf
      · obtain ⟨_, h⟩ := mem_outdirArgs h
        subst h
        exact not_isEngineFlag_of_ap2 (argPrefix2_outdirFlag _) (by decide) (by decide)
          (by decide)
      · subst h
        exact not_isEngineFlag_of_ap1 (argPrefix1_quotedArg _) (by decide)
  · intro he hf
    have hE := engineArgs_xelatex_pdf he hf
    exact engineArgs_subset j (by rw [hE]; simp)
  · intro he hf
    have hE := engineArgs_platex_dvi he hf
    refine ⟨baseArgs ++ rebuildArgs j ++ jobnameArgs j ++ shellEscapeArgs j ++
      synctexArgs j ++ extendedArgs j, outdirArgs j ++ [quotedArg j.texFilePath], ?_⟩
    rw [← hE]
    unfold constructArgs
    simp [List.append_assoc]

/-- Witness for C2: the platex/dvi branch on the concrete all-options job. -/
theorem c2_witness :
    List.IsInfix [latexFlag ("platex"), "-dvi"] (constructArgs jPlatex) :=
  (c2_engine_flag_branching jPlatex).2.2 rfl rfl

/-- Claim C3 (amended): for every well-formed JobState the argument list
begins with the four unconditional flags; contains `-g` exactly when
`shouldRebuild` is set; contains a quoted `-jobname` flag exactly when the
job name is non-null and non-empty (JS truthiness — the guard in the source
is `if (jobState.getJobName())`, so a non-null empty job name produces no
flag); contains `-shell-escape` exactly when shell escape is enabled;
contains `-synctex=1` exactly when SyncTeX is enabled; contains the `-r`
flag pointing at the bundled latexmkrc exactly when extended build mode is
enabled; contains a quoted `-outdir` flag exactly when an output directory
is set; and ends with the quoted source file path as its last element. -/
theorem c3_constructArgs_structure (j : JobState) (hWF : JobState.WF j) :
    (constructArgs j).take 4 = ["-interaction=nonstopmode", "-f", "-cd", "-file-line-error"]
    ∧ ("-g" ∈ constructArgs j ↔ j.shouldRebuild = true)
    ∧ (∀ n, jobnameFlag n ∈ constructArgs j ↔ (j.jobName = some n ∧ n ≠ ""))
    ∧ ("-shell-escape" ∈ constructArgs j ↔ j.enableShellEscape = true)
    ∧ ("-synctex=1" ∈ constructArgs j ↔ j.enableSynctex = true)
    ∧ (extendedFlag ∈ constructArgs j ↔ j.enableExtendedBuildMode = true)
    ∧ (∀ d, outdirFlag d ∈ constructArgs j ↔ (j.outputDirectory = d ∧ d ≠ ""))
    ∧ (constructArgs j).getLast? = some (quotedArg j.texFilePath) := by
  refine ⟨constructArgs_take4 j, ?_, ?_, ?_, ?_, ?_, ?_, constructArgs_getLast j⟩
  · constructor
    · intro h
      exact shape_g (shape_of_mem hWF h)
    · intro hc
      exact rebuildArgs_subset j (by simp [rebuildArgs, hc])
  · intro n
    constructor
    · intro h
      exact shape_jobname (shape_of_mem hWF h)
    · rintro ⟨hn, hne⟩
      exact jobnameArgs_subset j (by simp [jobnameArgs, hn, hne])
  · constructor
    · intro h
      exact shape_shellEscape (shape_of_mem hWF h)
    · intro hc
      exact shellEscapeArgs_subset j (by simp [shellEscapeArgs, hc])
  · constructor
    · intro h
      exact shape_synctex (shape_of_mem hWF h)
    · intro hc
      exact synctexArgs_subset j (by simp [synctexArgs, hc])
  · constructor
    · intro h
      exact shape_extended (shape_of_mem hWF h)
    · intro hc
      exact extendedArgs_subset j (by simp [extendedArgs, hc])
  · intro d
    constructor
    · intro h
      exact shape_outdir (shape_of_mem hWF h)
    · rintro ⟨hd, hne⟩
      subst hd
      exact outdirArgs_subset j (by simp [outdirArgs, hne])

/-- Counterexample for C3 as stated: with the non-null but empty job name
of `jEmptyJobName`, the claim's "quoted `-jobname` flag exactly when the
job name is non-null" fails — the job name is non-null yet no `-jobname`
flag of any job name appears in the argument list. -/
theorem c3_jobname_nonnull_counterexample :
    jEmptyJobName.jobName ≠ none
    ∧ ∀ n, jobnameFlag n ∉ constructArgs jEmptyJobName := by
  constructor
  · decide
  · intro n h
    obtain ⟨hn, hne⟩ := shape_jobname (shape_of_mem (Or.inl rfl) h)
    have h2 : (some "" : Option String) = some n := hn
    injection h2 with h3
    exact hne h3.symm

/-- Witness for C3 (amended) at the all-options job `jPlatex`. -/
theorem c3_witness :
    JobState.WF jPlatex
    ∧ ("-g" ∈ constructArgs jPlatex ↔ jPlatex.shouldRebuild = true)
    ∧ (jobnameFlag ("foo") ∈ constructArgs jPlatex ↔
        (jPlatex.jobName = some ("foo") ∧ ("foo" : String) ≠ "")) :=
  ⟨Or.inr (Or.inl rfl),
    (c3_constructArgs_structure jPlatex (Or.inr (Or.inl rfl))).2.1,
    (c3_constructArgs_structure jPlatex (Or.inr (Or.inl rfl))).2.2.1 ("foo")⟩

end AtomLatex
